import Mathlib

/-!
Shallow embedding of the AES5-2018 core library
(frequency validation, rate-category classification, validation metrics)
translated from the C++ sources under
`src/05-implementation/src/lib/Standards/AES/AES5/2018/core/`.

Modelling conventions:
* `uint32_t` values are `Nat` together with explicit `< 2 ^ 32` bounds where
  the bound matters; `uint64_t` intermediates are plain `Nat` (the one
  multiplication `abs_diff * 1000000` is bounded by `2 ^ 32 * 10 ^ 6 < 2 ^ 64`,
  so 64-bit arithmetic never wraps and `Nat` is exact).
* `double` values are modelled as exact rationals `ℚ`.  Every claim below
  compares doubles that are produced by the same deterministic computation
  (or integers below `2 ^ 53`, which `double` represents exactly), so the
  exact-rational abstraction is faithful for those comparisons.
* The wall-clock latency measured around a validation call is an input of the
  model (a `Nat` parameter), since it is read from a clock.
* Null pointers are modelled with `Option`: a C function-pointer argument
  becomes `Option (Nat → ValidationResult)`, a possibly-null array base
  pointer becomes `Option (Nat → Nat)` (indexed reads).
-/

namespace AES5

/-- Model of `validation::ValidationResult` from `validation_core.hpp`. -/
inductive ValidationResult : Type
  | Valid
  | InvalidInput
  | OutOfTolerance
  | PerformanceViolation
  | InternalError
deriving DecidableEq, Repr

/-- Model of `validation::ValidationMetrics` from `validation_core.hpp`:
five atomic `uint64_t` counters, modelled as plain `Nat`s. -/
structure ValidationMetrics : Type where
  total_validations : Nat
  successful_validations : Nat
  failed_validations : Nat
  max_latency_ns : Nat
  total_latency_ns : Nat
deriving DecidableEq, Repr

/-- The zero-initialized metrics block produced by the `ValidationCore`
constructor. -/
def ValidationMetrics.init : ValidationMetrics := ⟨0, 0, 0, 0, 0⟩

/-- Model of `ValidationCore::update_metrics` (validation_core.cpp:143-168): total+1,
cumulative latency += latency, success/failure+1 depending on the result,
and the maximum latency raised to `latency` when larger (the CAS retry loop
always terminates with the maximum of the two values). -/
def update_metrics (m : ValidationMetrics) (result : ValidationResult)
    (latency_ns : Nat) : ValidationMetrics where
  total_validations := m.total_validations + 1
  successful_validations :=
    if result = ValidationResult.Valid then m.successful_validations + 1
    else m.successful_validations
  failed_validations :=
    if result = ValidationResult.Valid then m.failed_validations
    else m.failed_validations + 1
  max_latency_ns :=
    if latency_ns > m.max_latency_ns then latency_ns else m.max_latency_ns
  total_latency_ns := m.total_latency_ns + latency_ns

/-- Model of `ValidationCore::validate` (validation_core.cpp:59-83).  The callback and
its `void* context` are folded into one Lean function; a null function
pointer is `none`.  `latency` is the measured wall time of the callback. -/
def ValidationCore.validate (m : ValidationMetrics) (value : Nat)
    (validation_function : Option (Nat → ValidationResult)) (latency : Nat) :
    ValidationResult × ValidationMetrics :=
  match validation_function with
  | none =>
      (ValidationResult.InternalError,
       update_metrics m ValidationResult.InternalError 0)
  | some f =>
      let result := f value
      (result, update_metrics m result latency)

/-- Model of `ValidationCore::MAX_BATCH_SIZE` (validation_core.hpp:249). -/
def MAX_BATCH_SIZE : Nat := 16

/-- The sequential loop of `ValidationCore::batch_validate`
(validation_core.cpp:104-111): validate `values[i], values[i+1], ...` for
`k` more elements, stopping at the first non-`Valid` outcome. -/
def batchRun (f : Nat → ValidationResult) (values : Nat → Nat) :
    Nat → Nat → ValidationResult
  | _, 0 => ValidationResult.Valid
  | i, k + 1 =>
      let r := f (values i)
      if r = ValidationResult.Valid then batchRun f values (i + 1) k else r

/-- Model of `ValidationCore::batch_validate` (validation_core.cpp:85-120).  A null
`values` pointer, a zero `count` or a null callback short-circuits to
`InternalError` with a zero-latency failed sample; otherwise the count is
clamped to `MAX_BATCH_SIZE`, the loop runs with fail-fast early exit, and
exactly one metrics sample is recorded for the whole batch. -/
def ValidationCore.batch_validate (m : ValidationMetrics)
    (values : Option (Nat → Nat)) (count : Nat)
    (validation_function : Option (Nat → ValidationResult)) (latency : Nat) :
    ValidationResult × ValidationMetrics :=
  match values, validation_function with
  | some vs, some f =>
      if count = 0 then
        (ValidationResult.InternalError,
         update_metrics m ValidationResult.InternalError 0)
      else
        let batch_count := if count > MAX_BATCH_SIZE then MAX_BATCH_SIZE else count
        let overall_result := batchRun f vs 0 batch_count
        (overall_result, update_metrics m overall_result latency)
  | _, _ =>
      (ValidationResult.InternalError,
       update_metrics m ValidationResult.InternalError 0)

/-! ## FrequencyValidator (frequency_validator.cpp) -/

/-- Model of `UINT32_MAX`. -/
def UINT32_MAX : Nat := 4294967295

/-- Model of `STANDARD_FREQUENCIES` (frequency_validator.cpp:29-40). -/
def STANDARD_FREQUENCIES : List Nat :=
  [32000, 44100, 47952, 48000, 48048, 88200, 96000, 176400, 192000, 384000]

/-- Model of `compliance::AES5Clause` (the values used by the frequency validator). -/
inductive AES5Clause : Type
  | Section_5_1
  | Section_5_2
  | Section_5_4
  | Annex_A
  | Unknown
deriving DecidableEq, Repr

/-- Model of `get_aes5_clause_for_frequency` (frequency_validator.cpp:43-57). -/
def get_aes5_clause_for_frequency (frequency : Nat) : AES5Clause :=
  if frequency = 48000 then AES5Clause.Section_5_1
  else if frequency = 44100 ∨ frequency = 88200 ∨ frequency = 96000 ∨
          frequency = 176400 ∨ frequency = 192000 ∨ frequency = 384000 then
    AES5Clause.Section_5_2
  else if frequency = 32000 then AES5Clause.Section_5_4
  else if frequency = 47952 ∨ frequency = 48048 then AES5Clause.Annex_A
  else AES5Clause.Unknown

/-- Model of `FrequencyRange` (frequency_validator.cpp:199-203). -/
structure FrequencyRange : Type where
  min_freq : Nat
  max_freq : Nat
  standard_freq : Nat
deriving DecidableEq, Repr

/-- Model of `FREQUENCY_LOOKUP_TABLE` (frequency_validator.cpp:205-217). -/
def FREQUENCY_LOOKUP_TABLE : List FrequencyRange :=
  [⟨0, 38050, 32000⟩,
   ⟨38051, 45999, 44100⟩,
   ⟨46000, 47499, 47952⟩,
   ⟨47500, 47899, 47952⟩,
   ⟨47900, 48150, 48000⟩,
   ⟨48151, 60000, 48048⟩,
   ⟨60001, 92000, 88200⟩,
   ⟨92001, 100000, 96000⟩,
   ⟨100001, 180000, 176400⟩,
   ⟨180001, 350000, 192000⟩,
   ⟨350001, UINT32_MAX, 384000⟩]

/-- Model of `EXACT_STANDARDS` (frequency_validator.cpp:220-222). -/
def EXACT_STANDARDS : List Nat :=
  [32000, 44100, 47952, 48000, 48048, 88200, 96000, 176400, 192000, 384000]

/-- The exact-match scan of `find_closest_standard_frequency`
(frequency_validator.cpp:233-237): return the first list element equal to
`frequency`. -/
def scanExact : List Nat → Nat → Option Nat
  | [], _ => none
  | e :: es, frequency =>
      if frequency = e then some e else scanExact es frequency

/-- The range scan of `find_closest_standard_frequency`
(frequency_validator.cpp:252-256): return the standard frequency of the
first range containing `frequency`. -/
def scanRanges : List FrequencyRange → Nat → Option Nat
  | [], _ => none
  | r :: rs, frequency =>
      if r.min_freq ≤ frequency ∧ frequency ≤ r.max_freq then
        some r.standard_freq
      else scanRanges rs frequency

/-- Model of `FrequencyValidator::find_closest_standard_frequency`
(frequency_validator.cpp:225-260). -/
def find_closest_standard_frequency (frequency : Nat) : Nat :=
  if frequency = 0 then 32000
  else
    match scanExact EXACT_STANDARDS frequency with
    | some exact_freq => exact_freq
    | none =>
        if 47900 ≤ frequency ∧ frequency ≤ 48150 then
          if frequency = 47952 then 47952
          else if frequency = 48000 then 48000
          else if frequency = 48048 then 48048
          else if frequency ≤ 47976 then 47952
          else if 48151 ≤ frequency then 48048
          else 48000
        else
          match scanRanges FREQUENCY_LOOKUP_TABLE frequency with
          | some standard_freq => standard_freq
          | none => 32000

/-- Model of `ToleranceLookup` (frequency_validator.cpp:264-268). -/
structure ToleranceLookup : Type where
  measured_freq : Nat
  reference_freq : Nat
  ppm_x1000 : Nat
deriving DecidableEq, Repr

/-- Model of `PPM_LOOKUP_TABLE` (frequency_validator.cpp:271-285). -/
def PPM_LOOKUP_TABLE : List ToleranceLookup :=
  [⟨32000, 32000, 0⟩, ⟨44100, 44100, 0⟩, ⟨47952, 47952, 0⟩,
   ⟨48000, 48000, 0⟩, ⟨48048, 48048, 0⟩, ⟨88200, 88200, 0⟩,
   ⟨96000, 96000, 0⟩, ⟨176400, 176400, 0⟩, ⟨192000, 192000, 0⟩,
   ⟨384000, 384000, 0⟩,
   ⟨47999, 48000, 20⟩,
   ⟨48001, 48000, 20⟩,
   ⟨47900, 48000, 2083⟩,
   ⟨35000, 32000, 93750⟩,
   ⟨40000, 44100, 93012⟩,
   ⟨70000, 96000, 270833⟩]

/-- The fast-path scan of `calculate_tolerance_ppm`
(frequency_validator.cpp:302-307): the `ppm_x1000` field of the first table
entry matching both frequencies. -/
def scanPPM : List ToleranceLookup → Nat → Nat → Option Nat
  | [], _, _ => none
  | e :: es, measured, reference =>
      if e.measured_freq = measured ∧ e.reference_freq = reference then
        some e.ppm_x1000
      else scanPPM es measured reference

/-- Model of `std::numeric_limits<double>::max()` as an exact rational:
`(2 - 2 ^ (-52)) * 2 ^ 1023 = (2 ^ 53 - 1) * 2 ^ 971`. -/
def DBL_MAX : ℚ := (2 ^ 53 - 1) * 2 ^ 971

/-- Model of `FrequencyValidator::calculate_tolerance_ppm`
(frequency_validator.cpp:288-319).  For `uint32` inputs the intermediate
`abs_diff * 1000000` is below `2 ^ 52`, so the `uint64_t` arithmetic never
wraps and the final cast to `double` is exact; `Nat` division is the same
truncating division as C++ unsigned division. -/
def calculate_tolerance_ppm (measured_frequency reference_frequency : Nat) : ℚ :=
  if reference_frequency = 0 then DBL_MAX
  else if measured_frequency = reference_frequency then 0
  else
    match scanPPM PPM_LOOKUP_TABLE measured_frequency reference_frequency with
    | some ppm_x1000 => (ppm_x1000 : ℚ) / 1000
    | none =>
        let abs_diff : Nat :=
          if measured_frequency > reference_frequency then
            measured_frequency - reference_frequency
          else reference_frequency - measured_frequency
        let ppm_scaled : Nat := abs_diff * 1000000 / reference_frequency
        (ppm_scaled : ℚ)

/-- Model of `FrequencyValidationResult` (frequency_validator.hpp), the fields set by
`validate_frequency`. -/
structure FrequencyValidationResult : Type where
  status : ValidationResult
  detected_frequency : Nat
  closest_standard_frequency : Nat
  tolerance_ppm : ℚ
  applicable_clause : AES5Clause
deriving DecidableEq, Repr

/-- Model of `FrequencyValidator::validate_frequency`
(frequency_validator.cpp:109-171).  A zero frequency returns immediately
with `InvalidInput` and zeroed fields, touching no metrics; otherwise the
result is computed and one metrics sample is recorded on the owned
`ValidationCore` metrics block (lines 147-168 perform exactly the update of
`update_metrics`).  `latency` is the measured duration of the call. -/
def validate_frequency (m : ValidationMetrics)
    (frequency tolerance_ppm : Nat) (latency : Nat) :
    FrequencyValidationResult × ValidationMetrics :=
  if frequency = 0 then
    (⟨ValidationResult.InvalidInput, frequency, 0, 0, AES5Clause.Unknown⟩, m)
  else
    let closest := find_closest_standard_frequency frequency
    let clause := get_aes5_clause_for_frequency closest
    let ppm := calculate_tolerance_ppm frequency closest
    let status :=
      if ppm ≤ (tolerance_ppm : ℚ) then ValidationResult.Valid
      else ValidationResult.OutOfTolerance
    (⟨status, frequency, closest, ppm, clause⟩, update_metrics m status latency)

/-! ## RateCategoryManager (rate_category_manager.cpp / .hpp) -/

/-- Model of `rate_categories::RateCategory` (rate_category_manager.hpp:28-36). -/
inductive RateCategory : Type
  | Unknown
  | Quarter
  | Half
  | Basic
  | Double
  | Quadruple
  | Octuple
deriving DecidableEq, Repr

/-- Band constants (rate_category_manager.hpp:182-193). -/
def QUARTER_RATE_MIN_HZ : Nat := 7750
def QUARTER_RATE_MAX_HZ : Nat := 13500
def HALF_RATE_MIN_HZ : Nat := 15500
def HALF_RATE_MAX_HZ : Nat := 27000
def BASIC_RATE_MIN_HZ : Nat := 31000
def BASIC_RATE_MAX_HZ : Nat := 54000
def DOUBLE_RATE_MIN_HZ : Nat := 62000
def DOUBLE_RATE_MAX_HZ : Nat := 108000
def QUADRUPLE_RATE_MIN_HZ : Nat := 124000
def QUADRUPLE_RATE_MAX_HZ : Nat := 216000
def OCTUPLE_RATE_MIN_HZ : Nat := 248000
def OCTUPLE_RATE_MAX_HZ : Nat := 432000

/-- Model of `RateCategoryManager::BASE_FREQUENCY_HZ` (rate_category_manager.hpp:195). -/
def BASE_FREQUENCY_HZ : Nat := 48000

/-- The six-band interval check of AES5-2018 Section 5.3.  This exact chain
of comparisons appears twice in the source: as the body of the static
table initializer (rate_category_manager.cpp:34-52) and as the fallback of
`classify_frequency_optimized` (rate_category_manager.cpp:232-251). -/
def classifyRange (frequency_hz : Nat) : RateCategory :=
  if QUARTER_RATE_MIN_HZ ≤ frequency_hz ∧ frequency_hz ≤ QUARTER_RATE_MAX_HZ then
    RateCategory.Quarter
  else if HALF_RATE_MIN_HZ ≤ frequency_hz ∧ frequency_hz ≤ HALF_RATE_MAX_HZ then
    RateCategory.Half
  else if BASIC_RATE_MIN_HZ ≤ frequency_hz ∧ frequency_hz ≤ BASIC_RATE_MAX_HZ then
    RateCategory.Basic
  else if DOUBLE_RATE_MIN_HZ ≤ frequency_hz ∧ frequency_hz ≤ DOUBLE_RATE_MAX_HZ then
    RateCategory.Double
  else if QUADRUPLE_RATE_MIN_HZ ≤ frequency_hz ∧ frequency_hz ≤ QUADRUPLE_RATE_MAX_HZ then
    RateCategory.Quadruple
  else if OCTUPLE_RATE_MIN_HZ ≤ frequency_hz ∧ frequency_hz ≤ OCTUPLE_RATE_MAX_HZ then
    RateCategory.Octuple
  else RateCategory.Unknown

/-- Entry `i` of the static `frequency_to_category_lookup_` table
(rate_category_manager.cpp:22-56): the six-band check applied to
`i * 1000` Hz, with the `size_t`-to-`uint32_t` conversion of
`uint32_t frequency_hz = i * 1000` made explicit as `% 2 ^ 32`. -/
def frequency_to_category_lookup (i : Nat) : RateCategory :=
  classifyRange (i * 1000 % 2 ^ 32)

/-- Modelled from the spec: `FREQUENCY_LOOKUP_SIZE`, the index bound of the
static kHz-indexed category table, is declared in a header that is not among
the sources; the spec fixes only that the table is indexed by integer kHz
and (with the fallback) must agree with the six-band check everywhere.  All
theorems below are proved for an arbitrary table size, so nothing depends on
this concrete choice, which covers the bands up to 432 kHz. -/
def FREQUENCY_LOOKUP_SIZE : Nat := 433

/-- Model of `RateCategoryManager::classify_frequency_optimized`
(rate_category_manager.cpp:220-252), parametrized by the table size
`tableSize` (`FREQUENCY_LOOKUP_SIZE`): O(1) table lookup for exact integer
kHz frequencies inside the table, six-band range-check fallback otherwise. -/
def classify_frequency_optimized (tableSize : Nat) (frequency_hz : Nat) :
    RateCategory :=
  let frequency_khz := frequency_hz / 1000
  if frequency_khz < tableSize ∧ frequency_hz % 1000 = 0 then
    frequency_to_category_lookup frequency_khz
  else
    classifyRange frequency_hz

/-- Model of `RateCategoryManager::calculate_multiplier_optimized`
(rate_category_manager.cpp:254-268), with the `double` division modelled as
exact rational division. -/
def calculate_multiplier_optimized (tableSize : Nat) (frequency_hz : Nat) : ℚ :=
  if frequency_hz = 0 then 0
  else if classify_frequency_optimized tableSize frequency_hz = RateCategory.Unknown then 0
  else (frequency_hz : ℚ) / (BASE_FREQUENCY_HZ : ℚ)

/-- Model of `RateCategoryResult` (rate_category_manager.hpp:42-67). -/
structure RateCategoryResult : Type where
  category : RateCategory
  multiplier : ℚ
  frequency_hz : Nat
  valid : Bool
deriving DecidableEq, Repr

/-- The mutable state of a `RateCategoryManager`: the single-slot cache
(`last_frequency_`, `last_category_`, `last_multiplier_`,
rate_category_manager.hpp:218-220) and the metrics block of the owned
`ValidationCore`. -/
structure RCMState : Type where
  last_frequency : Nat
  last_category : RateCategory
  last_multiplier : ℚ
  metrics : ValidationMetrics
deriving DecidableEq, Repr

/-- The state established by the `RateCategoryManager` constructor
(rate_category_manager.cpp:109-119): cache slot frequency 0, category
`Unknown`, multiplier 0.0, zeroed metrics. -/
def RCMState.init : RCMState := ⟨0, RateCategory.Unknown, 0, ValidationMetrics.init⟩

/-- Model of `RateCategoryManager::rate_category_validation_function`
(rate_category_manager.cpp:271-286) as invoked from `classify_rate_category`
with the non-null `this` context: `Valid` when the internal classification
is not `Unknown`, else `InvalidInput`. -/
def rate_category_validation_function (tableSize : Nat) (frequency : Nat) :
    ValidationResult :=
  if classify_frequency_optimized tableSize frequency ≠ RateCategory.Unknown then
    ValidationResult.Valid
  else ValidationResult.InvalidInput

/-- Model of `RateCategoryManager::classify_rate_category`
(rate_category_manager.cpp:136-168): the single-slot cache hit returns the
cached fields without recomputation or metrics update; the fresh path
records one sample via the owned `ValidationCore`, classifies, computes the
multiplier, and overwrites the cache.  `latency` is the wall time the
`ValidationCore` measures around the callback. -/
def classify_rate_category (tableSize : Nat) (s : RCMState)
    (frequency_hz : Nat) (latency : Nat) : RateCategoryResult × RCMState :=
  if frequency_hz = s.last_frequency then
    (⟨s.last_category, s.last_multiplier, frequency_hz,
      decide (s.last_category ≠ RateCategory.Unknown)⟩, s)
  else
    let metricsAfter :=
      (ValidationCore.validate s.metrics frequency_hz
        (some (rate_category_validation_function tableSize)) latency).2
    let category := classify_frequency_optimized tableSize frequency_hz
    let multiplier := calculate_multiplier_optimized tableSize frequency_hz
    let valid := decide (category ≠ RateCategory.Unknown)
    (⟨category, multiplier, frequency_hz, valid⟩,
     ⟨frequency_hz, category, multiplier, metricsAfter⟩)

/-- The cache well-formedness invariant of a `RateCategoryManager`: the
single-slot cache holds exactly the classification and multiplier of the
cached frequency.  It holds at construction and is preserved by every
call. -/
def cacheWF (tableSize : Nat) (s : RCMState) : Prop :=
  s.last_category = classify_frequency_optimized tableSize s.last_frequency ∧
  s.last_multiplier = calculate_multiplier_optimized tableSize s.last_frequency

/-! ## Helper lemmas -/

/-- The table path and the fallback path of `classify_frequency_optimized`
agree: for any table size and any `uint32` frequency, the optimized
classification is the six-band range check. -/
lemma classify_frequency_optimized_eq_classifyRange (tableSize frequency_hz : Nat)
    (hf : frequency_hz < 2 ^ 32) :
    classify_frequency_optimized tableSize frequency_hz = classifyRange frequency_hz := by
  simp only [classify_frequency_optimized]
  split_ifs with h
  · have hdvd : frequency_hz / 1000 * 1000 = frequency_hz :=
      Nat.div_mul_cancel (Nat.dvd_of_mod_eq_zero h.2)
    rw [frequency_to_category_lookup, hdvd, Nat.mod_eq_of_lt hf]
  · rfl

/-- Classifying frequency 0 always yields `Unknown`, on either path. -/
lemma classify_frequency_optimized_zero (tableSize : Nat) :
    classify_frequency_optimized tableSize 0 = RateCategory.Unknown := by
  simp only [classify_frequency_optimized]
  split_ifs <;> decide

/-- The multiplier of frequency 0 is 0. -/
lemma calculate_multiplier_optimized_zero (tableSize : Nat) :
    calculate_multiplier_optimized tableSize 0 = 0 := by
  simp [calculate_multiplier_optimized]

/-- The freshly constructed manager state satisfies the cache invariant. -/
lemma cacheWF_init (tableSize : Nat) : cacheWF tableSize RCMState.init := by
  constructor
  · show RateCategory.Unknown = classify_frequency_optimized tableSize 0
    rw [classify_frequency_optimized_zero]
  · show (0 : ℚ) = calculate_multiplier_optimized tableSize 0
    rw [calculate_multiplier_optimized_zero]

/-- A successful `scanExact` returns the scanned frequency itself, which is
an element of the scanned list. -/
lemma scanExact_mem : ∀ (l : List Nat) (f v : Nat),
    scanExact l f = some v → v = f ∧ v ∈ l := by
  intro l
  induction l with
  | nil => intro f v h; simp [scanExact] at h
  | cons e es ih =>
      intro f v h
      rw [scanExact] at h
      by_cases he : f = e
      · rw [if_pos he] at h
        simp at h
        simp [h, he]
      · rw [if_neg he] at h
        obtain ⟨hv, hmem⟩ := ih f v h
        exact ⟨hv, List.mem_cons_of_mem e hmem⟩

/-- A successful `scanRanges` returns the standard frequency of some range
of the scanned table. -/
lemma scanRanges_mem : ∀ (l : List FrequencyRange) (f v : Nat),
    scanRanges l f = some v → ∃ r ∈ l, v = r.standard_freq := by
  intro l
  induction l with
  | nil => intro f v h; simp [scanRanges] at h
  | cons r rs ih =>
      intro f v h
      rw [scanRanges] at h
      by_cases hr : r.min_freq ≤ f ∧ f ≤ r.max_freq
      · rw [if_pos hr] at h
        simp at h
        exact ⟨r, List.mem_cons_self r rs, h.symm⟩
      · rw [if_neg hr] at h
        obtain ⟨q, hq, hv⟩ := ih f v h
        exact ⟨q, List.mem_cons_of_mem r hq, hv⟩

/-- If every element of the evaluated window is `Valid`, the batch loop
returns `Valid`. -/
lemma batchRun_all_valid (f : Nat → ValidationResult) (values : Nat → Nat) :
    ∀ (k i : Nat), (∀ j, i ≤ j → j < i + k → f (values j) = ValidationResult.Valid) →
      batchRun f values i k = ValidationResult.Valid := by
  intro k
  induction k with
  | zero => intro i _; rfl
  | succ k ih =>
      intro i h
      rw [batchRun]
      have hi : f (values i) = ValidationResult.Valid :=
        h i le_rfl (by omega)
      rw [if_pos hi]
      exact ih (i + 1) fun j hj1 hj2 => h j (by omega) (by omega)

/-- If index `j` inside the evaluated window is the first failure, the batch
loop returns the outcome at `j`. -/
lemma batchRun_first_fail (f : Nat → ValidationResult) (values : Nat → Nat) :
    ∀ (k i j : Nat), i ≤ j → j < i + k →
      (∀ l, i ≤ l → l < j → f (values l) = ValidationResult.Valid) →
      f (values j) ≠ ValidationResult.Valid →
      batchRun f values i k = f (values j) := by
  intro k
  induction k with
  | zero => intro i j h1 h2; omega
  | succ k ih =>
      intro i j h1 h2 h3 h4
      rw [batchRun]
      by_cases hi : f (values i) = ValidationResult.Valid
      · rw [if_pos hi]
        have hij : i < j := by
          rcases Nat.lt_or_ge i j with h | h
          · exact h
          · exact absurd (le_antisymm h1 h ▸ hi) h4
        exact ih (i + 1) j hij (by omega) (fun l hl1 hl2 => h3 l (by omega) hl2) h4
      · rw [if_neg hi]
        have hij : i = j := by
          rcases Nat.lt_or_ge i j with h | h
          · exact absurd (h3 i le_rfl h) hi
          · omega
        rw [hij]

/-- Any non-`Valid` outcome of the batch loop is the outcome of the callback
at some evaluated index. -/
lemma batchRun_result_of_callback (f : Nat → ValidationResult) (values : Nat → Nat) :
    ∀ (k i : Nat), batchRun f values i k ≠ ValidationResult.Valid →
      ∃ j, i ≤ j ∧ j < i + k ∧ batchRun f values i k = f (values j) := by
  intro k
  induction k with
  | zero => intro i h; exact absurd rfl h
  | succ k ih =>
      intro i h
      rw [batchRun] at h ⊢
      by_cases hi : f (values i) = ValidationResult.Valid
      · rw [if_pos hi] at h ⊢
        obtain ⟨j, hj1, hj2, hj3⟩ := ih (i + 1) h
        exact ⟨j, by omega, by omega, hj3⟩
      · rw [if_neg hi] at h ⊢
        exact ⟨i, le_rfl, by omega, rfl⟩

/-- Band characterization of the six-band range check. -/
lemma classifyRange_spec (f : Nat) :
    (classifyRange f = RateCategory.Quarter ↔ 7750 ≤ f ∧ f ≤ 13500) ∧
    (classifyRange f = RateCategory.Half ↔ 15500 ≤ f ∧ f ≤ 27000) ∧
    (classifyRange f = RateCategory.Basic ↔ 31000 ≤ f ∧ f ≤ 54000) ∧
    (classifyRange f = RateCategory.Double ↔ 62000 ≤ f ∧ f ≤ 108000) ∧
    (classifyRange f = RateCategory.Quadruple ↔ 124000 ≤ f ∧ f ≤ 216000) ∧
    (classifyRange f = RateCategory.Octuple ↔ 248000 ≤ f ∧ f ≤ 432000) ∧
    (classifyRange f = RateCategory.Unknown ↔
      ¬((7750 ≤ f ∧ f ≤ 13500) ∨ (15500 ≤ f ∧ f ≤ 27000) ∨
        (31000 ≤ f ∧ f ≤ 54000) ∨ (62000 ≤ f ∧ f ≤ 108000) ∨
        (124000 ≤ f ∧ f ≤ 216000) ∨ (248000 ≤ f ∧ f ≤ 432000))) := by
  simp only [classifyRange, QUARTER_RATE_MIN_HZ, QUARTER_RATE_MAX_HZ,
    HALF_RATE_MIN_HZ, HALF_RATE_MAX_HZ, BASIC_RATE_MIN_HZ, BASIC_RATE_MAX_HZ,
    DOUBLE_RATE_MIN_HZ, DOUBLE_RATE_MAX_HZ, QUADRUPLE_RATE_MIN_HZ,
    QUADRUPLE_RATE_MAX_HZ, OCTUPLE_RATE_MIN_HZ, OCTUPLE_RATE_MAX_HZ]
  split_ifs <;> simp_all <;> omega

/-! ## Claim theorems -/

/-- C9: for every table size and every index, the kHz-indexed lookup-table
entry equals the six-band range classification of `i * 1000` Hz, and for
every `uint32` frequency, `classify_frequency_optimized` returns the
six-band range classification whichever path (O(1) table lookup or range
fallback) it takes. -/
theorem C9_lookup_table_matches_range_classification :
    (∀ i : Nat, i * 1000 < 2 ^ 32 →
      frequency_to_category_lookup i = classifyRange (i * 1000)) ∧
    (∀ (tableSize frequency_hz : Nat), frequency_hz < 2 ^ 32 →
      classify_frequency_optimized tableSize frequency_hz = classifyRange frequency_hz) := by
  constructor
  · intro i hi
    rw [frequency_to_category_lookup, Nat.mod_eq_of_lt hi]
  · exact classify_frequency_optimized_eq_classifyRange

/-- C9 witness: concrete instances — table entry 96 classifies 96000 Hz, and
the table path agrees with the fallback at the non-kHz frequency 96500. -/
theorem C9_lookup_table_matches_range_classification_witness :
    (96 * 1000 < 2 ^ 32 ∧ frequency_to_category_lookup 96 = classifyRange (96 * 1000)) ∧
    (96500 < 2 ^ 32 ∧
      classify_frequency_optimized FREQUENCY_LOOKUP_SIZE 96500 = classifyRange 96500) :=
  ⟨⟨by decide,
    C9_lookup_table_matches_range_classification.1 96 (by decide)⟩,
   ⟨by decide,
    C9_lookup_table_matches_range_classification.2 FREQUENCY_LOOKUP_SIZE 96500 (by decide)⟩⟩

/-- C2: for every table size, reachable manager state and `uint32` frequency,
the category assigned by `classify_rate_category` is `Quarter` exactly on
[7750, 13500], `Half` on [15500, 27000], `Basic` on [31000, 54000], `Double`
on [62000, 108000], `Quadruple` on [124000, 216000], `Octuple` on
[248000, 432000], and `Unknown` exactly outside all six bands. -/
theorem C2_rate_category_band_characterization (tableSize : Nat) (s : RCMState)
    (frequency latency : Nat) (hs : cacheWF tableSize s) (hf : frequency < 2 ^ 32) :
    ((classify_rate_category tableSize s frequency latency).1.category =
        RateCategory.Quarter ↔ 7750 ≤ frequency ∧ frequency ≤ 13500) ∧
    ((classify_rate_category tableSize s frequency latency).1.category =
        RateCategory.Half ↔ 15500 ≤ frequency ∧ frequency ≤ 27000) ∧
    ((classify_rate_category tableSize s frequency latency).1.category =
        RateCategory.Basic ↔ 31000 ≤ frequency ∧ frequency ≤ 54000) ∧
    ((classify_rate_category tableSize s frequency latency).1.category =
        RateCategory.Double ↔ 62000 ≤ frequency ∧ frequency ≤ 108000) ∧
    ((classify_rate_category tableSize s frequency latency).1.category =
        RateCategory.Quadruple ↔ 124000 ≤ frequency ∧ frequency ≤ 216000) ∧
    ((classify_rate_category tableSize s frequency latency).1.category =
        RateCategory.Octuple ↔ 248000 ≤ frequency ∧ frequency ≤ 432000) ∧
    ((classify_rate_category tableSize s frequency latency).1.category =
        RateCategory.Unknown ↔
      ¬((7750 ≤ frequency ∧ frequency ≤ 13500) ∨ (15500 ≤ frequency ∧ frequency ≤ 27000) ∨
        (31000 ≤ frequency ∧ frequency ≤ 54000) ∨ (62000 ≤ frequency ∧ frequency ≤ 108000) ∨
        (124000 ≤ frequency ∧ frequency ≤ 216000) ∨ (248000 ≤ frequency ∧ frequency ≤ 432000))) := by
  have hcat : (classify_rate_category tableSize s frequency latency).1.category =
      classifyRange frequency := by
    simp only [classify_rate_category]
    split_ifs with h
    · show s.last_category = classifyRange frequency
      rw [hs.1, h, classify_frequency_optimized_eq_classifyRange tableSize s.last_frequency
        (h ▸ hf)]
    · show classify_frequency_optimized tableSize frequency = classifyRange frequency
      exact classify_frequency_optimized_eq_classifyRange tableSize frequency hf
  rw [hcat]
  exact classifyRange_spec frequency

/-- C2 witness: the characterization applied at frequency 96000 in the
freshly constructed manager state. -/
theorem C2_rate_category_band_characterization_witness :
    cacheWF FREQUENCY_LOOKUP_SIZE RCMState.init ∧ 96000 < 2 ^ 32 ∧
    ((classify_rate_category FREQUENCY_LOOKUP_SIZE RCMState.init 96000 5).1.category =
      RateCategory.Double ↔ 62000 ≤ 96000 ∧ 96000 ≤ 108000) :=
  ⟨cacheWF_init FREQUENCY_LOOKUP_SIZE, by decide,
   (C2_rate_category_band_characterization FREQUENCY_LOOKUP_SIZE RCMState.init 96000 5
     (cacheWF_init FREQUENCY_LOOKUP_SIZE) (by decide)).2.2.2.1⟩

/-- A non-`Unknown` classification forces a nonzero frequency, so the
multiplier of such a frequency is exactly `frequency / 48000`. -/
lemma calculate_multiplier_optimized_of_not_unknown (tableSize frequency_hz : Nat)
    (h : classify_frequency_optimized tableSize frequency_hz ≠ RateCategory.Unknown) :
    calculate_multiplier_optimized tableSize frequency_hz =
      (frequency_hz : ℚ) / 48000 := by
  have h0 : frequency_hz ≠ 0 := by
    intro h0
    exact h (h0 ▸ classify_frequency_optimized_zero tableSize)
  rw [calculate_multiplier_optimized, if_neg h0, if_neg h, BASE_FREQUENCY_HZ]
  norm_num

/-- An `Unknown` classification forces multiplier 0. -/
lemma calculate_multiplier_optimized_of_unknown (tableSize frequency_hz : Nat)
    (h : classify_frequency_optimized tableSize frequency_hz = RateCategory.Unknown) :
    calculate_multiplier_optimized tableSize frequency_hz = 0 := by
  simp [calculate_multiplier_optimized, h]

/-- C3: in every state satisfying the cache invariant, the result of
`classify_rate_category` has `multiplier = frequency_hz / 48000.0` and
`valid = true` whenever its category is not `Unknown`, and
`multiplier = 0.0` and `valid = false` whenever its category is `Unknown`;
this holds on both the cached path and the fresh path, and the cache
invariant is preserved by every call. -/
theorem C3_multiplier_validity_invariant (tableSize : Nat) (s : RCMState)
    (frequency latency : Nat) (hs : cacheWF tableSize s) :
    ((classify_rate_category tableSize s frequency latency).1.category ≠
        RateCategory.Unknown →
      (classify_rate_category tableSize s frequency latency).1.multiplier =
          (frequency : ℚ) / 48000 ∧
      (classify_rate_category tableSize s frequency latency).1.valid = true) ∧
    ((classify_rate_category tableSize s frequency latency).1.category =
        RateCategory.Unknown →
      (classify_rate_category tableSize s frequency latency).1.multiplier = 0 ∧
      (classify_rate_category tableSize s frequency latency).1.valid = false) ∧
    cacheWF tableSize (classify_rate_category tableSize s frequency latency).2 := by
  simp only [classify_rate_category]
  split_ifs with h
  · subst h
    refine ⟨?_, ?_, hs⟩
    · intro hcat
      replace hcat : s.last_category ≠ RateCategory.Unknown := hcat
      constructor
      · show s.last_multiplier = (s.last_frequency : ℚ) / 48000
        rw [hs.2]
        exact calculate_multiplier_optimized_of_not_unknown tableSize s.last_frequency
          (hs.1 ▸ hcat)
      · show decide (s.last_category ≠ RateCategory.Unknown) = true
        simpa using hcat
    · intro hcat
      replace hcat : s.last_category = RateCategory.Unknown := hcat
      constructor
      · show s.last_multiplier = 0
        rw [hs.2]
        exact calculate_multiplier_optimized_of_unknown tableSize s.last_frequency
          (hs.1 ▸ hcat)
      · show decide (s.last_category ≠ RateCategory.Unknown) = false
        simp [hcat]
  · refine ⟨?_, ?_, ?_⟩
    · intro hcat
      replace hcat : classify_frequency_optimized tableSize frequency ≠
          RateCategory.Unknown := hcat
      constructor
      · exact calculate_multiplier_optimized_of_not_unknown tableSize frequency hcat
      · show decide (classify_frequency_optimized tableSize frequency ≠
            RateCategory.Unknown) = true
        simpa using hcat
    · intro hcat
      replace hcat : classify_frequency_optimized tableSize frequency =
          RateCategory.Unknown := hcat
      constructor
      · exact calculate_multiplier_optimized_of_unknown tableSize frequency hcat
      · show decide (classify_frequency_optimized tableSize frequency ≠
            RateCategory.Unknown) = false
        simp [hcat]
    · exact ⟨rfl, rfl⟩

/-- C3 witness: the invariant applied at frequency 96000 (classified
`Double`, multiplier 2) in the freshly constructed manager state. -/
theorem C3_multiplier_validity_invariant_witness :
    cacheWF FREQUENCY_LOOKUP_SIZE RCMState.init ∧
    (((classify_rate_category FREQUENCY_LOOKUP_SIZE RCMState.init 96000 5).1.category ≠
        RateCategory.Unknown →
      (classify_rate_category FREQUENCY_LOOKUP_SIZE RCMState.init 96000 5).1.multiplier =
          (96000 : ℚ) / 48000 ∧
      (classify_rate_category FREQUENCY_LOOKUP_SIZE RCMState.init 96000 5).1.valid = true) ∧
    ((classify_rate_category FREQUENCY_LOOKUP_SIZE RCMState.init 96000 5).1.category =
        RateCategory.Unknown →
      (classify_rate_category FREQUENCY_LOOKUP_SIZE RCMState.init 96000 5).1.multiplier = 0 ∧
      (classify_rate_category FREQUENCY_LOOKUP_SIZE RCMState.init 96000 5).1.valid = false) ∧
    cacheWF FREQUENCY_LOOKUP_SIZE
      (classify_rate_category FREQUENCY_LOOKUP_SIZE RCMState.init 96000 5).2) :=
  ⟨cacheWF_init FREQUENCY_LOOKUP_SIZE,
   C3_multiplier_validity_invariant FREQUENCY_LOOKUP_SIZE RCMState.init 96000 5
     (cacheWF_init FREQUENCY_LOOKUP_SIZE)⟩

/-- C10 counterexample: a frequency-0 classification is not always a
cache-hit and is not always uncounted.  Starting from the constructed state,
classifying 48000 overwrites the cache slot (metrics total becomes 1), and
the next `classify_rate_category(0)` then misses the cache and records a
metrics sample: the total becomes 2, so that zero-frequency classification
was counted. -/
theorem C10_zero_after_nonzero_counterexample :
    (classify_rate_category FREQUENCY_LOOKUP_SIZE RCMState.init 48000
      0).2.metrics.total_validations = 1 ∧
    (classify_rate_category FREQUENCY_LOOKUP_SIZE
      (classify_rate_category FREQUENCY_LOOKUP_SIZE RCMState.init 48000 0).2 0
      0).2.metrics.total_validations = 2 := by
  constructor <;>
    norm_num [classify_rate_category, RCMState.init, ValidationCore.validate,
      update_metrics, ValidationMetrics.init, rate_category_validation_function,
      classify_frequency_optimized, frequency_to_category_lookup, classifyRange,
      calculate_multiplier_optimized, QUARTER_RATE_MIN_HZ, QUARTER_RATE_MAX_HZ,
      HALF_RATE_MIN_HZ, HALF_RATE_MAX_HZ, BASIC_RATE_MIN_HZ, BASIC_RATE_MAX_HZ,
      FREQUENCY_LOOKUP_SIZE]

/-- C10 amended: every call to `classify_rate_category(0)` made while the
cache slot holds frequency 0 — in particular the very first call after
construction, and every immediately repeated 0 call — takes the cache-hit
path: it returns category `Unknown`, multiplier 0.0, valid false, and leaves
the whole state (all ValidationCore metrics counters included) unchanged;
such a zero-frequency classification is not counted in the metrics. -/
theorem C10_zero_frequency_cache_hit_amended (tableSize : Nat) (s : RCMState)
    (latency : Nat) (h0 : s.last_frequency = 0) (hs : cacheWF tableSize s) :
    classify_rate_category tableSize s 0 latency =
      (⟨RateCategory.Unknown, 0, 0, false⟩, s) := by
  have hcat : s.last_category = RateCategory.Unknown := by
    rw [hs.1, h0, classify_frequency_optimized_zero]
  have hmul : s.last_multiplier = 0 := by
    rw [hs.2, h0, calculate_multiplier_optimized_zero]
  rw [classify_rate_category, if_pos h0.symm, hcat, hmul]
  simp

/-- C10 amended witness: the very first call after construction. -/
theorem C10_zero_frequency_cache_hit_amended_witness :
    RCMState.init.last_frequency = 0 ∧ cacheWF FREQUENCY_LOOKUP_SIZE RCMState.init ∧
    classify_rate_category FREQUENCY_LOOKUP_SIZE RCMState.init 0 5 =
      (⟨RateCategory.Unknown, 0, 0, false⟩, RCMState.init) :=
  ⟨rfl, cacheWF_init FREQUENCY_LOOKUP_SIZE,
   C10_zero_frequency_cache_hit_amended FREQUENCY_LOOKUP_SIZE RCMState.init 5 rfl
     (cacheWF_init FREQUENCY_LOOKUP_SIZE)⟩

/-- C6: for every tolerance, metrics state and measured latency,
`validate_frequency(0, tolerance)` returns immediately with `InvalidInput`,
detected frequency 0, closest standard frequency 0, tolerance 0.0 ppm and
clause `Unknown`, and leaves every counter of the owned ValidationCore
metrics block unchanged. -/
theorem C6_validate_frequency_zero_input (m : ValidationMetrics)
    (tolerance_ppm latency : Nat) :
    validate_frequency m 0 tolerance_ppm latency =
      (⟨ValidationResult.InvalidInput, 0, 0, 0, AES5Clause.Unknown⟩, m) := by
  rfl

/-- Unfolding of `batch_validate` on the fully-supplied path. -/
lemma batch_validate_eq (m : ValidationMetrics) (values : Nat → Nat)
    (count : Nat) (f : Nat → ValidationResult) (latency : Nat)
    (hcount : count ≠ 0) :
    ValidationCore.batch_validate m (some values) count (some f) latency =
      (batchRun f values 0 (min count MAX_BATCH_SIZE),
       update_metrics m (batchRun f values 0 (min count MAX_BATCH_SIZE)) latency) := by
  have hbc : (if count > MAX_BATCH_SIZE then MAX_BATCH_SIZE else count) =
      min count MAX_BATCH_SIZE := by
    rw [Nat.min_def]
    split_ifs <;> omega
  simp only [ValidationCore.batch_validate, if_neg hcount]
  rw [hbc]

/-- C7: for every non-null values array, non-null callback and positive
count, `batch_validate` evaluates the callback over at most
`min(count, 16)` elements in order: if every element of that window is
`Valid` the batch returns `Valid`; if index `j` in the window is the first
non-`Valid` element, the batch returns the callback's outcome at `j`
(elements after `j` are never consulted); and exactly one metrics sample is
recorded for the whole batch (`total_validations` grows by exactly 1). -/
theorem C7_batch_validate_fail_fast (values : Nat → Nat)
    (f : Nat → ValidationResult) (count : Nat) (m : ValidationMetrics)
    (latency : Nat) (hcount : 0 < count) :
    ((∀ i, i < min count MAX_BATCH_SIZE → f (values i) = ValidationResult.Valid) →
      (ValidationCore.batch_validate m (some values) count (some f) latency).1 =
        ValidationResult.Valid) ∧
    (∀ j, j < min count MAX_BATCH_SIZE →
      (∀ i, i < j → f (values i) = ValidationResult.Valid) →
      f (values j) ≠ ValidationResult.Valid →
      (ValidationCore.batch_validate m (some values) count (some f) latency).1 =
        f (values j)) ∧
    (ValidationCore.batch_validate m (some values) count (some f)
        latency).2.total_validations = m.total_validations + 1 := by
  rw [batch_validate_eq m values count f latency hcount.ne']
  refine ⟨?_, ?_, rfl⟩
  · intro h
    exact batchRun_all_valid f values (min count MAX_BATCH_SIZE) 0
      fun j _ hj2 => h j (by omega)
  · intro j hj hprev hfail
    exact batchRun_first_fail f values (min count MAX_BATCH_SIZE) 0 j
      (Nat.zero_le j) (by omega) (fun l _ hl2 => hprev l hl2) hfail

/-- C7 witness: the batch {48000, 48000, 48000, 44100} against a
must-equal-48000 predicate returns the outcome of the 44100 entry (index 3,
the first failure) and records exactly one sample. -/
theorem C7_batch_validate_fail_fast_witness :
    0 < 4 ∧
    (ValidationCore.batch_validate ValidationMetrics.init
      (some fun i => [48000, 48000, 48000, 44100].getD i 0) 4
      (some fun v => if v = 48000 then ValidationResult.Valid
        else ValidationResult.OutOfTolerance) 0).1 = ValidationResult.OutOfTolerance ∧
    (ValidationCore.batch_validate ValidationMetrics.init
      (some fun i => [48000, 48000, 48000, 44100].getD i 0) 4
      (some fun v => if v = 48000 then ValidationResult.Valid
        else ValidationResult.OutOfTolerance)
      0).2.total_validations = ValidationMetrics.init.total_validations + 1 :=
  ⟨by decide,
   ((C7_batch_validate_fail_fast (fun i => [48000, 48000, 48000, 44100].getD i 0)
      (fun v => if v = 48000 then ValidationResult.Valid
        else ValidationResult.OutOfTolerance) 4 ValidationMetrics.init 0
      (by decide)).2.1 3 (by decide) (by decide) (by decide)).trans (by decide),
   (C7_batch_validate_fail_fast (fun i => [48000, 48000, 48000, 44100].getD i 0)
      (fun v => if v = 48000 then ValidationResult.Valid
        else ValidationResult.OutOfTolerance) 4 ValidationMetrics.init 0
      (by decide)).2.2⟩

/-- C8 counterexample: `batch_validate` returns `InternalError` of its own
for a non-null callback that never returns `InternalError`, when called with
`count = 0` (the code also checks `values == nullptr` and `count == 0`, not
only the callback, contradicting the claim that a null callback is the only
detectable internal failure). -/
theorem C8_batch_validate_internalerror_counterexample :
    (ValidationCore.batch_validate ValidationMetrics.init (some fun _ => 48000) 0
      (some fun _ => ValidationResult.Valid) 0).1 = ValidationResult.InternalError := by
  decide

/-- C8 amended: the detectable internal failures of ValidationCore are a
null callback (for `validate`), and for `batch_validate` additionally a null
values pointer or a zero count.  `validate` with a null callback returns
`InternalError` and still records a zero-latency failed sample; for every
non-null callback, `validate` returns exactly the callback's outcome, and
`batch_validate` with non-null values and positive count only returns
`InternalError` when the callback itself produced it on an evaluated
element. -/
theorem C8_internal_failure_amended (m : ValidationMetrics)
    (value latency : Nat) (f : Nat → ValidationResult) (values : Nat → Nat)
    (count : Nat) :
    ValidationCore.validate m value none latency =
      (ValidationResult.InternalError,
       ⟨m.total_validations + 1, m.successful_validations,
        m.failed_validations + 1, m.max_latency_ns, m.total_latency_ns⟩) ∧
    (ValidationCore.validate m value (some f) latency).1 = f value ∧
    (0 < count →
      (ValidationCore.batch_validate m (some values) count (some f) latency).1 =
          ValidationResult.InternalError →
      ∃ j, j < min count MAX_BATCH_SIZE ∧
        f (values j) = ValidationResult.InternalError) := by
  refine ⟨?_, rfl, ?_⟩
  · simp [ValidationCore.validate, update_metrics]
  · intro hcount herr
    rw [batch_validate_eq m values count f latency hcount.ne'] at herr
    replace herr : batchRun f values 0 (min count MAX_BATCH_SIZE) =
        ValidationResult.InternalError := herr
    obtain ⟨j, _, hj2, hj3⟩ := batchRun_result_of_callback f values
      (min count MAX_BATCH_SIZE) 0 (by rw [herr]; decide)
    exact ⟨j, by omega, by rw [← hj3, herr]⟩

/-- C8 amended witness: a callback that always fails internally makes a
1-element batch report `InternalError`, and the theorem locates it at an
evaluated index. -/
theorem C8_internal_failure_amended_witness :
    0 < 1 ∧
    (ValidationCore.batch_validate ValidationMetrics.init (some fun _ => 5) 1
      (some fun _ => ValidationResult.InternalError) 3).1 =
        ValidationResult.InternalError ∧
    ∃ j, j < min 1 MAX_BATCH_SIZE ∧
      (fun _ : Nat => ValidationResult.InternalError) ((fun _ : Nat => 5) j) =
        ValidationResult.InternalError :=
  ⟨by decide, by decide,
   (C8_internal_failure_amended ValidationMetrics.init 7 3
      (fun _ => ValidationResult.InternalError) (fun _ => 5) 1).2.2
     (by decide) (by decide)⟩

/-- C1 (code evaluated at the failing input): the claim's truncating integer
formula gives `|47999 - 48000| * 1000000 / 48000 = 20` ppm, but the code's
precomputed-lookup fast path returns
`double(PPM_LOOKUP_TABLE entry 20) / 1000.0 = 0.02` ppm for the pair
`(47999, 48000)` — a thousandfold divergence from the formula (and from the
code's own comment, which documents the entry as "~20.83 PPM").  The second
half of the claim, `calculate_tolerance_ppm(f, f) = 0.0`, does hold (shown
here at `f = 12345`; equal inputs short-circuit before the lookup table). -/
theorem C1_ppm_lookup_table_diverges_from_integer_formula :
    calculate_tolerance_ppm 47999 48000 = 1 / 50 ∧
    (48000 - 47999) * 1000000 / 48000 = 20 ∧
    (1 : ℚ) / 50 ≠ 20 ∧
    calculate_tolerance_ppm 12345 12345 = 0 := by
  refine ⟨?_, by decide, by norm_num, ?_⟩
  · norm_num [calculate_tolerance_ppm, scanPPM, PPM_LOOKUP_TABLE]
  · simp [calculate_tolerance_ppm]

set_option maxHeartbeats 1000000 in
/-- C4: `find_closest_standard_frequency` always returns one of the ten
standard frequencies; the band lookup table is total over the `uint32`
domain (so the final fallback branch is unreachable), its ranges are
contiguous and non-overlapping (each maximum is followed by the next
minimum), start at 0 and end at `UINT32_MAX`, each range maps to exactly
one standard frequency; and `find_closest_standard_frequency(35000) =
32000`. -/
theorem C4_find_closest_total_membership :
    (∀ f, f < 2 ^ 32 → find_closest_standard_frequency f ∈ STANDARD_FREQUENCIES) ∧
    (∀ f, f < 2 ^ 32 → (scanRanges FREQUENCY_LOOKUP_TABLE f).isSome = true) ∧
    (∀ i, i < FREQUENCY_LOOKUP_TABLE.length - 1 →
      (FREQUENCY_LOOKUP_TABLE.getD (i + 1) ⟨0, 0, 0⟩).min_freq =
        (FREQUENCY_LOOKUP_TABLE.getD i ⟨0, 0, 0⟩).max_freq + 1) ∧
    (∀ r ∈ FREQUENCY_LOOKUP_TABLE,
      r.min_freq ≤ r.max_freq ∧ r.standard_freq ∈ STANDARD_FREQUENCIES) ∧
    (FREQUENCY_LOOKUP_TABLE.map FrequencyRange.min_freq).head? = some 0 ∧
    (FREQUENCY_LOOKUP_TABLE.map FrequencyRange.max_freq).getLast? = some (2 ^ 32 - 1) ∧
    find_closest_standard_frequency 35000 = 32000 := by
  refine ⟨?_, ?_, by decide, by decide, by decide, by decide, by decide⟩
  · intro f hf
    by_cases hf0 : f = 0
    · subst hf0; decide
    · rw [find_closest_standard_frequency, if_neg hf0]
      split
      · rename_i e heq
        have hmem := (scanExact_mem EXACT_STANDARDS f e heq).2
        simpa [EXACT_STANDARDS, STANDARD_FREQUENCIES] using hmem
      · split_ifs <;> try decide
        split
        · rename_i v heq2
          obtain ⟨r, hr, hv⟩ := scanRanges_mem FREQUENCY_LOOKUP_TABLE f v heq2
          subst hv
          exact (by decide : ∀ r ∈ FREQUENCY_LOOKUP_TABLE,
            r.standard_freq ∈ STANDARD_FREQUENCIES) r hr
        · decide
  · intro f hf
    have hf31 : f ≤ 4294967295 := by omega
    simp only [scanRanges, FREQUENCY_LOOKUP_TABLE, UINT32_MAX]
    split_ifs <;> first | rfl | (exfalso; omega)

/-- C4 witness: the theorem applied at 35000 and at `UINT32_MAX`. -/
theorem C4_find_closest_total_membership_witness :
    (35000 < 2 ^ 32 ∧ find_closest_standard_frequency 35000 ∈ STANDARD_FREQUENCIES) ∧
    (4294967295 < 2 ^ 32 ∧
      (scanRanges FREQUENCY_LOOKUP_TABLE 4294967295).isSome = true) :=
  ⟨⟨by decide, C4_find_closest_total_membership.1 35000 (by decide)⟩,
   ⟨by decide, C4_find_closest_total_membership.2.1 4294967295 (by decide)⟩⟩

/-- The exact-match scan finds nothing in the 48 kHz neighborhood apart from
the three exact standards. -/
lemma scanExact_none_of_48k (f : Nat) (h1 : 47900 ≤ f) (h2 : f ≤ 60000)
    (h3 : f ≠ 47952) (h4 : f ≠ 48000) (h5 : f ≠ 48048) :
    scanExact EXACT_STANDARDS f = none := by
  simp only [scanExact, EXACT_STANDARDS]
  split_ifs <;> simp_all

set_option maxHeartbeats 1000000 in
/-- C5: the three 48 kHz-family standards map to themselves exactly; every
non-exact frequency in [47900, 48150] maps to the pull-down variant 47952
when at most 47976 and to the primary 48000 when at least 47977; and every
frequency in [48151, 60000] maps to the pull-up variant 48048. -/
theorem C5_48k_family_mapping :
    (find_closest_standard_frequency 47952 = 47952 ∧
     find_closest_standard_frequency 48000 = 48000 ∧
     find_closest_standard_frequency 48048 = 48048) ∧
    (∀ f, 47900 ≤ f → f ≤ 48150 → f ≠ 47952 → f ≠ 48000 → f ≠ 48048 →
      (f ≤ 47976 → find_closest_standard_frequency f = 47952) ∧
      (47977 ≤ f → find_closest_standard_frequency f = 48000)) ∧
    (∀ f, 48151 ≤ f → f ≤ 60000 → find_closest_standard_frequency f = 48048) := by
  refine ⟨by decide, ?_, ?_⟩
  · intro f h1 h2 h3 h4 h5
    have hf0 : f ≠ 0 := by omega
    have hscan := scanExact_none_of_48k f h1 (by omega) h3 h4 h5
    rw [find_closest_standard_frequency, if_neg hf0]
    simp only [hscan, if_pos (And.intro h1 h2), if_neg h3, if_neg h4, if_neg h5]
    constructor
    · intro h6
      rw [if_pos h6]
    · intro h6
      rw [if_neg (by omega : ¬f ≤ 47976), if_neg (by omega : ¬48151 ≤ f)]
  · intro f h1 h2
    have hf0 : f ≠ 0 := by omega
    have hscan := scanExact_none_of_48k f (by omega) h2
      (by omega) (by omega) (by omega)
    have hrange : scanRanges FREQUENCY_LOOKUP_TABLE f = some 48048 := by
      simp only [scanRanges, FREQUENCY_LOOKUP_TABLE]
      split_ifs <;> first | rfl | (exfalso; omega)
    rw [find_closest_standard_frequency, if_neg hf0]
    simp only [hscan, hrange, if_neg (by omega : ¬(47900 ≤ f ∧ f ≤ 48150))]

/-- C5 witness: the non-exact mappings at 47950, 48100 and 50000. -/
theorem C5_48k_family_mapping_witness :
    (47900 ≤ 47950 ∧ 47950 ≤ 48150 ∧ 47950 ≠ 47952 ∧ 47950 ≠ 48000 ∧
      47950 ≠ 48048 ∧ 47950 ≤ 47976 ∧
      find_closest_standard_frequency 47950 = 47952) ∧
    (47977 ≤ 48100 ∧ find_closest_standard_frequency 48100 = 48000) ∧
    (48151 ≤ 50000 ∧ 50000 ≤ 60000 ∧
      find_closest_standard_frequency 50000 = 48048) :=
  ⟨⟨by decide, by decide, by decide, by decide, by decide, by decide,
    (C5_48k_family_mapping.2.1 47950 (by decide) (by decide) (by decide)
      (by decide) (by decide)).1 (by decide)⟩,
   ⟨by decide,
    (C5_48k_family_mapping.2.1 48100 (by decide) (by decide) (by decide)
      (by decide) (by decide)).2 (by decide)⟩,
   ⟨by decide, by decide,
    C5_48k_family_mapping.2.2 50000 (by decide) (by decide)⟩⟩

end AES5
